import Mathlib

set_option maxRecDepth 8000

/-!
Verification of the court-booking script (src/booking.py).

The script drives an external browser page. We embed it shallowly: every
interaction with the page is abstracted as an outcome parameter supplied to
the embedded function, and the control flow of the Python source is
translated faithfully.

Conventions used throughout:
* a Playwright call that either completes or raises within its timeout is
  modelled as a `Bool` (or `Option String` when its observed text matters):
  `true` / `some m` means the call completed (with text `m`), `false` /
  `none` means it raised (timeout, element absent, click intercepted, ...);
* functions that can raise in Python return `Except` values or carry an
  `Option String` error component; the message strings keep the source's
  wording (quotes dropped);
* wall-clock instants are naturals counting milliseconds on a linear local
  timeline whose day boundaries fall on multiples of `msPerDay`;
* the spin-wait loop is given explicit fuel, since the Python loop's
  termination depends on the external clock advancing.
-/

/-- A combination: one (court, time-slot) pair, as in the source's
`all_combinations = [(court, slot) for court in self.courts for slot in self.time_slots]`. -/
def Combo : Type := String × String

instance : DecidableEq Combo := instDecidableEqProd

/-- Fixed court list, `self.courts` in `__init__`. -/
def courts : List String := ["1号场", "2号场", "3号场"]

/-- Fixed slot list, `self.time_slots` in `__init__`. -/
def time_slots : List String := ["18:00-19:00", "19:00-20:00", "20:00-21:00"]

/-- The full cartesian product built in `_execute_booking` before shuffling. -/
def all_combinations : List Combo :=
  courts.flatMap (fun court => time_slots.map (fun slot => (court, slot)))

/-- Trace-producing embedding of `wait_and_click(page, selector_list, timeout)`.
`act s = true` means the wait/scroll/delay/click sequence for selector `s`
completed without raising; `act s = false` means some step raised (the
source swallows the exception, logs a warning and moves to the next
selector).  Returns the list of selectors attempted, in order, and the
boolean result of the source function. -/
def wait_and_click_trace (act : String → Bool) : List String → List String × Bool
  | [] => ([], false)
  | s :: rest =>
    if act s = true then ([s], true)
    else
      let r := wait_and_click_trace act rest
      (s :: r.1, r.2)

/-- The return value of `wait_and_click`: true on the first selector whose
click sequence completes, false when every selector fails. -/
def wait_and_click (act : String → Bool) (selector_list : List String) : Bool :=
  (wait_and_click_trace act selector_list).2

/-- Embedding of `check_result(page)`.  `successText` is the observation of
the success locator (`text=/预约成功|提交成功/`): `some m` when it became
visible within its 4000 ms budget and its text read as `m`, `none` when that
probe raised.  `failureText` likewise for the failure locator
(`text=/失败|错误|超限|频繁|取消.*次|已达上限/`) with its 1000 ms budget.
The source returns `True` in the first case and `False` in both others;
the matched text is only logged. -/
def check_result (successText failureText : Option String) : Bool :=
  match successText with
  | some _ => true
  | none =>
    match failureText with
    | some _ => false
    | none => false

/-- The spec's three-valued outcome: one of Success, Failure, Unknown,
carrying an optional human-readable message. -/
inductive OutcomeSignal where
  | Success (msg : String)
  | Failure (msg : String)
  | Unknown
deriving DecidableEq

/-- Modelled from the spec's words (section 4.3 OutcomeClassifier), for
comparison with the source's `check_result`: probe success first, then
failure, else Unknown, each signal carrying the matched text. -/
def classifySpec (successText failureText : Option String) : OutcomeSignal :=
  match successText with
  | some m => .Success m
  | none =>
    match failureText with
    | some m => .Failure m
    | none => .Unknown

/-- Per-combination outcomes of the page interactions inside the loop body
of `_execute_booking`.  Field order follows the source:
court tab click (`wait_and_click`, step a), slot click (raises on failure,
step b), confirm click (raises, step c), submit-button visibility wait
(raises, step c), submit click (`wait_and_click`, step d), then the two
classifier observations (step e) and the `去支付` click outcome used by
`go_to_payment`. -/
structure ComboEnv where
  courtClick : Bool
  slotClick : Bool
  confirmClick : Bool
  submitVisible : Bool
  submitClick : Bool
  successText : Option String
  failureText : Option String
  payment : Bool

/-- The two ways `_execute_booking` raises: the one-time date selection
failed (`raise Exception("选择明天日期失败")`), or the loop ran out of
combinations (`raise Exception("已尝试所有场地和时间组合，未能成功预订。")`). -/
inductive BookingError where
  | dateSelectionFailed
  | exhausted
deriving DecidableEq

/-- Result of `_execute_booking` together with the trace the claims talk
about: the combinations whose loop body started, in order, and the results
of the `go_to_payment` calls that were made. -/
structure BookingOutcome where
  result : Except BookingError Bool
  attempted : List Combo
  payAttempts : List Bool

/-- A combination attempt falls through to the next combination: one of the
five steps a-d failed (steps b, c and the visibility wait raise and are
caught by the loop's `except`, the two `wait_and_click` steps return false
and hit a `continue`). -/
def fallsThrough (e : ComboEnv) : Bool :=
  !e.courtClick || !e.slotClick || !e.confirmClick || !e.submitVisible || !e.submitClick

/-- The `for court, time_slot in all_combinations` loop of
`_execute_booking`, translated step for step.  Each failing step continues
to the next combination; once a combination reaches step e the function
returns `check_result`'s value, calling `go_to_payment` first when it is
true.  An empty remainder raises the exhaustion error. -/
def bookingLoop (env : Combo → ComboEnv) : List Combo → BookingOutcome
  | [] => ⟨.error .exhausted, [], []⟩
  | c :: rest =>
    let e := env c
    if e.courtClick = false then
      let r := bookingLoop env rest
      ⟨r.result, c :: r.attempted, r.payAttempts⟩
    else if e.slotClick = false then
      let r := bookingLoop env rest
      ⟨r.result, c :: r.attempted, r.payAttempts⟩
    else if e.confirmClick = false then
      let r := bookingLoop env rest
      ⟨r.result, c :: r.attempted, r.payAttempts⟩
    else if e.submitVisible = false then
      let r := bookingLoop env rest
      ⟨r.result, c :: r.attempted, r.payAttempts⟩
    else if e.submitClick = false then
      let r := bookingLoop env rest
      ⟨r.result, c :: r.attempted, r.payAttempts⟩
    else
      let ok := check_result e.successText e.failureText
      ⟨.ok ok, [c], if ok = true then [e.payment] else []⟩

/-- Gregorian leap-year rule, matching Python's `datetime` calendar. -/
def isLeap (y : Nat) : Bool := (y % 4 == 0 && y % 100 != 0) || y % 400 == 0

/-- Length of a month in Python's `datetime` calendar. -/
def daysInMonth (y m : Nat) : Nat :=
  if m = 2 then (if isLeap y = true then 29 else 28)
  else if m = 4 ∨ m = 6 ∨ m = 9 ∨ m = 11 then 30
  else 31

/-- A calendar date, as used by `datetime.now() + timedelta(days=1)`. -/
structure CalDate where
  year : Nat
  month : Nat
  day : Nat

/-- Adding `timedelta(days=1)` to a date. -/
def addOneDay (d : CalDate) : CalDate :=
  if d.day < daysInMonth d.year d.month then ⟨d.year, d.month, d.day + 1⟩
  else if d.month < 12 then ⟨d.year, d.month + 1, 1⟩
  else ⟨d.year + 1, 1, 1⟩

/-- Python's `f"{n:02d}"`. -/
def pad2 (n : Nat) : String := if n < 10 then "0" ++ toString n else toString n

/-- The date-selector candidates built in `_execute_booking`:
`tomorrow = (datetime.now() + timedelta(days=1)).day`, then the literal
tomorrow text and the two zero-padded day-of-month patterns (one with a
leading dash), exactly as in the source's f-strings. -/
def date_selectors (today : CalDate) : List String :=
  let tomorrow := (addOneDay today).day
  ["text=明天", "text=/-" ++ pad2 tomorrow ++ "/", "text=/" ++ pad2 tomorrow ++ "/"]

/-- Embedding of `_execute_booking(page)` with its attempt trace.
`today` is the current date used to build the date selectors, `act` gives
the outcome of the one-time date-selection clicks, `env` the per-combination
step outcomes, and `shuffled` the combination order after
`random.shuffle(all_combinations)` (the theorems quantify over any
permutation of `all_combinations`). -/
def execute_booking_trace (today : CalDate) (act : String → Bool)
    (env : Combo → ComboEnv) (shuffled : List Combo) : BookingOutcome :=
  if wait_and_click act (date_selectors today) = false then
    ⟨.error .dateSelectionFailed, [], []⟩
  else bookingLoop env shuffled

/-- The result of `_execute_booking` alone: a raised error or the returned
boolean. -/
def execute_booking (today : CalDate) (act : String → Bool)
    (env : Combo → ComboEnv) (shuffled : List Combo) : Except BookingError Bool :=
  (execute_booking_trace today act env shuffled).result

/-- Whether an `_execute_booking` outcome is a raised exception. -/
def isErrB : Except BookingError Bool → Bool
  | .error _ => true
  | .ok _ => false

/-- Milliseconds in a day. -/
def msPerDay : Nat := 86400000

/-- Splitting a character list at colons, accumulating the current field in
reverse: the recursion behind `splitColon`. -/
def splitColonAux : List Char → List Char → List String
  | [], acc => [String.mk acc.reverse]
  | c :: cs, acc =>
    if c = ':' then String.mk acc.reverse :: splitColonAux cs []
    else splitColonAux cs (c :: acc)

/-- Python's `s.split(':')`. -/
def splitColon (s : String) : List String := splitColonAux s.data []

/-- Decimal value of a digit list, most significant first: the recursion
behind `strToNat`. -/
def strToNatAux : List Char → Nat → Nat
  | [], acc => acc
  | c :: cs, acc => strToNatAux cs (acc * 10 + (c.toNat - 48))

/-- Python's `int(s)` on the digit-only fields of `target_time`. -/
def strToNat (s : String) : Nat := strToNatAux s.data 0

/-- Parsing of `self.target_time` (`"08:30:00:000"`): `split(':')`, then
hour, minute, second and millisecond fields as in the source's
`now.replace(...)` call (the source converts the fourth field to
microseconds; we stay in milliseconds). -/
def parseTargetTime (s : String) : Nat :=
  let ps := splitColon s
  let h := strToNat (ps.getD 0 "")
  let m := strToNat (ps.getD 1 "")
  let sec := strToNat (ps.getD 2 "")
  let ms := strToNat (ps.getD 3 "")
  ((h * 60 + m) * 60 + sec) * 1000 + ms

/-- The target instant computed by `wait_until_target_time`:
today's date with the configured time-of-day, rolled forward by one day
when `now >= target`. -/
def computeTarget (target_time : String) (now : Nat) : Nat :=
  let base := now / msPerDay * msPerDay + parseTargetTime target_time
  if base ≤ now then base + msPerDay else base

/-- The `while datetime.now() < target: time.sleep(0.001)` spin loop.
`clock i` is the i-th reading of `datetime.now()`; the loop returns the
first reading that reaches the target.  `fuel` bounds the number of
readings modelled; `none` means the loop was still spinning. -/
def spinWait (clock : Nat → Nat) (target : Nat) : Nat → Nat → Option Nat
  | _, 0 => none
  | i, fuel + 1 =>
    if clock i < target then spinWait clock target (i + 1) fuel
    else some (clock i)

/-- Embedding of `wait_until_target_time(self)`.  In CI (`is_ci`) it
returns at once, at the invocation instant `now`; otherwise it computes the
(possibly rolled) target and spins.  The returned value is the clock
reading at which the function returns. -/
def wait_until_target_time (is_ci : Bool) (target_time : String) (now : Nat)
    (clock : Nat → Nat) (fuel : Nat) : Option Nat :=
  if is_ci = true then some now
  else spinWait clock (computeTarget target_time now) 0 fuel

/-- Sequencing of the `try` body of `run(self)`:
`_login_and_prepare`, then `wait_until_target_time`, then
`_execute_booking`, each step propagating its exception. -/
def seqResult {ε : Type} (prep waitStep : Except ε Unit)
    (search : Except ε Bool) : Except ε Bool :=
  match prep with
  | .error e => .error e
  | .ok _ =>
    match waitStep with
    | .error e => .error e
    | .ok _ => search

/-- Observable behaviour of one `run(self)` call: the returned boolean,
whether the `except` branch attempted the diagnostic screenshot, and
whether that screenshot call itself completed. -/
structure RunTrace where
  result : Bool
  screenshotAttempted : Bool
  screenshotSaved : Bool

/-- Embedding of `run(self)`: the try/except around the
prepare → wait → search sequence.  On any exception the screenshot is
attempted inside its own try/except (`shot` is its outcome) and `False` is
returned; otherwise the search's boolean is returned. -/
def runOrchestrator {ε : Type} (prep waitStep : Except ε Unit)
    (search : Except ε Bool) (shot : Except ε Unit) : RunTrace :=
  match seqResult prep waitStep search with
  | .ok b => ⟨b, false, false⟩
  | .error _ =>
    ⟨false, true, match shot with | .ok _ => true | .error _ => false⟩

/-- Python truthiness of an `os.getenv` result: `None` and the empty
string are falsy. -/
def truthyOpt : Option String → Bool
  | none => false
  | some s => !s.isEmpty

/-- The configuration a successfully constructed `LightningFastBooking`
instance carries. -/
structure BookingConfig where
  username : String
  password : String
  venue_name : String
  courts : List String
  time_slots : List String
  target_time : String
  is_ci : Bool

/-- Embedding of `__init__`: reads the two credential variables, raises
`ValueError` when either is missing or empty, otherwise fills in the fixed
configuration.  `github_actions` is the `GITHUB_ACTIONS` variable. -/
def initBooking (username password github_actions : Option String) :
    Except String BookingConfig :=
  if truthyOpt username = false ∨ truthyOpt password = false then
    .error "错误：未找到 BOOKING_USERNAME 或 BOOKING_PASSWORD"
  else
    .ok ⟨username.getD "", password.getD "", "望江西区网球场", courts, time_slots,
         "08:30:00:000", github_actions == some "true"⟩

/-- The credential-handling actions of `do_login` that the claims track. -/
inductive LoginAction where
  | fillUsername
  | fillPassword
  | clickLoginButton
  | skipLogin
deriving DecidableEq

/-- Embedding of `do_login(self, page)`.  `clickOutside` is the outcome of
the `wait_and_click` on `text="校外人员登录"` (failure raises),
`clickLogin` that of the `wait_and_click` on the `立即登录` button (failure
raises after the fields were filled).  Returns the performed credential
actions, in order, and the raised message if any.  The `skipLogin` branch
is the source's `else` that logs `未设置用户名或密码，跳过登录步骤`. -/
def do_login (cfg : BookingConfig) (clickOutside clickLogin : Bool) :
    List LoginAction × Option String :=
  if clickOutside = false then ([], some "点击校外人员登录失败")
  else if !cfg.username.isEmpty && !cfg.password.isEmpty then
    if clickLogin = false then
      ([.fillUsername, .fillPassword], some "点击立即登录按钮失败")
    else
      ([.fillUsername, .fillPassword, .clickLoginButton], none)
  else ([.skipLogin], none)

/-- A date on which the concrete evaluations below run. -/
def d0 : CalDate := ⟨2025, 10, 12⟩

/-- A page on which every selector click succeeds. -/
def actAll : String → Bool := fun _ => true

/-- A run in which every page interaction succeeds but neither the success
nor the failure pattern ever appears: every combination that reaches
classification is classified Unknown. -/
def envAllUnknown : Combo → ComboEnv :=
  fun _ => ⟨true, true, true, true, true, none, none, true⟩

/-- A run in which every court-tab click fails, so every combination falls
through and the loop exhausts. -/
def envAllFail : Combo → ComboEnv :=
  fun _ => ⟨false, false, false, false, false, none, none, false⟩

/-- A run in which every step succeeds, the success pattern appears, and
the follow-up payment click fails. -/
def envSuccessNoPay : Combo → ComboEnv :=
  fun _ => ⟨true, true, true, true, true, some "预约成功", none, false⟩

/-- A configuration as produced by `initBooking` on concrete credentials. -/
def cfg0 : BookingConfig :=
  ⟨"alice", "pw", "望江西区网球场", courts, time_slots, "08:30:00:000", false⟩

/-! Supporting lemmas about the search loop and the action executor. -/

/-- Unfolding of the loop body on a non-empty remainder: a combination
whose steps a-d fail in any way is skipped and recorded, one reaching
classification ends the loop. -/
theorem bookingLoop_cons (env : Combo → ComboEnv) (c : Combo) (rest : List Combo) :
    bookingLoop env (c :: rest) =
      if fallsThrough (env c) = true then
        ⟨(bookingLoop env rest).result, c :: (bookingLoop env rest).attempted,
         (bookingLoop env rest).payAttempts⟩
      else
        ⟨.ok (check_result (env c).successText (env c).failureText), [c],
         if check_result (env c).successText (env c).failureText = true
         then [(env c).payment] else []⟩ := by
  rcases h : env c with ⟨a, b, c', d, e', st, ft, p⟩
  cases a <;> cases b <;> cases c' <;> cases d <;> cases e' <;>
    simp [bookingLoop, fallsThrough, h]

/-- The attempted combinations form a sublist of the input order. -/
theorem bookingLoop_attempted_sublist (env : Combo → ComboEnv) (l : List Combo) :
    (bookingLoop env l).attempted.Sublist l := by
  induction l with
  | nil => simp [bookingLoop]
  | cons c rest ih =>
    rw [bookingLoop_cons]
    cases hf : fallsThrough (env c)
    · simp only [Bool.false_eq_true, if_false]
      exact List.Sublist.cons₂ c (List.nil_sublist rest)
    · simp only [if_true]
      exact List.Sublist.cons₂ c ih

/-- The loop raises the exhaustion error exactly when every combination of
the remainder falls through. -/
theorem bookingLoop_exhausted_iff (env : Combo → ComboEnv) (l : List Combo) :
    (bookingLoop env l).result = .error .exhausted ↔
      l.all (fun c => fallsThrough (env c)) = true := by
  induction l with
  | nil => simp [bookingLoop]
  | cons c rest ih =>
    rw [bookingLoop_cons]
    cases hf : fallsThrough (env c) <;> simp [hf, ih]

/-- The loop never raises the date-selection error. -/
theorem bookingLoop_not_dateFailed (env : Combo → ComboEnv) (l : List Combo) :
    (bookingLoop env l).result ≠ .error .dateSelectionFailed := by
  induction l with
  | nil => simp [bookingLoop]
  | cons c rest ih =>
    rw [bookingLoop_cons]
    cases hf : fallsThrough (env c) <;> simp [hf, ih]

/-- When the loop exhausts, every combination of the remainder was
attempted, in order. -/
theorem bookingLoop_exhausted_attempted (env : Combo → ComboEnv) (l : List Combo) :
    (bookingLoop env l).result = .error .exhausted →
      (bookingLoop env l).attempted = l := by
  induction l with
  | nil => intro _; simp [bookingLoop]
  | cons c rest ih =>
    rw [bookingLoop_cons]
    cases hf : fallsThrough (env c) <;> simp [hf]
    exact ih

/-- A raised loop result means exhaustion. -/
theorem bookingLoop_isErr_iff (env : Combo → ComboEnv) (l : List Combo) :
    isErrB (bookingLoop env l).result = true ↔
      l.all (fun c => fallsThrough (env c)) = true := by
  constructor
  · intro h
    cases hres : (bookingLoop env l).result with
    | ok b => rw [hres] at h; simp [isErrB] at h
    | error e =>
      cases e with
      | dateSelectionFailed => exact absurd hres (bookingLoop_not_dateFailed env l)
      | exhausted => exact (bookingLoop_exhausted_iff env l).1 hres
  · intro h
    rw [(bookingLoop_exhausted_iff env l).2 h]
    rfl

/-- Combinations that fall through are recorded and skipped, leaving the
rest of the run unchanged. -/
theorem bookingLoop_append_falls (env : Combo → ComboEnv) (pre l : List Combo)
    (hpre : ∀ x ∈ pre, fallsThrough (env x) = true) :
    bookingLoop env (pre ++ l) =
      ⟨(bookingLoop env l).result, pre ++ (bookingLoop env l).attempted,
       (bookingLoop env l).payAttempts⟩ := by
  induction pre with
  | nil => simp
  | cons q pre ih =>
    have hq : fallsThrough (env q) = true := hpre q (by simp)
    have hpre' : ∀ x ∈ pre, fallsThrough (env x) = true :=
      fun x hx => hpre x (by simp [hx])
    rw [List.cons_append, bookingLoop_cons, hq, if_pos rfl, ih hpre']
    simp

/-- The first combination whose steps a-d all succeed ends the loop with
the classifier's verdict, paying exactly when it is positive. -/
theorem bookingLoop_first_hit (env : Combo → ComboEnv) (c : Combo) (rest : List Combo)
    (hc : fallsThrough (env c) = false) :
    bookingLoop env (c :: rest) =
      ⟨.ok (check_result (env c).successText (env c).failureText), [c],
       if check_result (env c).successText (env c).failureText = true
       then [(env c).payment] else []⟩ := by
  rw [bookingLoop_cons, hc]
  simp

/-- The action executor visits every candidate exactly once when all of
them fail. -/
theorem wait_and_click_trace_all_fail (act : String → Bool) (l : List String)
    (h : ∀ x ∈ l, act x = false) :
    wait_and_click_trace act l = (l, false) := by
  induction l with
  | nil => rfl
  | cons s rest ih =>
    have hs : act s = false := h s (by simp)
    have hrest := ih (fun x hx => h x (by simp [hx]))
    simp [wait_and_click_trace, hs, hrest]

/-- The action executor stops at the first succeeding candidate. -/
theorem wait_and_click_trace_first_hit (act : String → Bool)
    (pre : List String) (c : String) (post : List String)
    (hpre : ∀ x ∈ pre, act x = false) (hc : act c = true) :
    wait_and_click_trace act (pre ++ c :: post) = (pre ++ [c], true) := by
  induction pre with
  | nil => simp [wait_and_click_trace, hc]
  | cons s pre ih =>
    have hs : act s = false := hpre s (by simp)
    have hrest := ih (fun x hx => hpre x (by simp [hx]))
    simp [wait_and_click_trace, hs, hrest]

/-- The spin loop only hands control back at a clock reading at or past the
target. -/
theorem spinWait_ge (clock : Nat → Nat) (target : Nat) :
    ∀ fuel i t, spinWait clock target i fuel = some t → target ≤ t := by
  intro fuel
  induction fuel with
  | zero => intro i t h; simp [spinWait] at h
  | succ n ih =>
    intro i t h
    rw [spinWait] at h
    by_cases hc : clock i < target
    · rw [if_pos hc] at h
      exact ih (i + 1) t h
    · rw [if_neg hc] at h
      simp at h
      omega

/-- Every month of the calendar has at least 28 days. -/
theorem daysInMonth_ge (y m : Nat) : 28 ≤ daysInMonth y m := by
  unfold daysInMonth
  split
  · split <;> omega
  · split <;> omega

/-! Claim theorems. -/

/-- C2: ActionExecutor.attempt (wait_and_click): for every non-empty
candidate sequence in which some candidate's action succeeds, it returns
true at the first succeeding candidate and no candidate after that one is
invoked (the attempt trace is the failing prefix followed by the first
success); for every candidate sequence in which every candidate errors or
times out, it returns false and every candidate was attempted exactly once,
each per-candidate error being swallowed (modelled by `act` returning
false) rather than propagated. -/
theorem wait_and_click_spec (act : String → Bool) (l : List String) :
    ((∀ x ∈ l, act x = false) → wait_and_click_trace act l = (l, false)) ∧
    (∀ pre c post, l = pre ++ c :: post → (∀ x ∈ pre, act x = false) →
      act c = true → wait_and_click_trace act l = (pre ++ [c], true)) := by
  constructor
  · exact wait_and_click_trace_all_fail act l
  · intro pre c post hl hpre hc
    subst hl
    exact wait_and_click_trace_first_hit act pre c post hpre hc

/-- C2 witness: on a concrete three-candidate list whose second candidate
succeeds, the trace stops there; on a concrete list where every candidate
fails, all are attempted and the result is false. -/
theorem wait_and_click_spec_witness :
    wait_and_click_trace (fun s => s == "b") ["a", "b", "c"] = (["a", "b"], true) ∧
    wait_and_click_trace (fun _ => false) ["a", "b"] = (["a", "b"], false) :=
  ⟨(wait_and_click_spec (fun s => s == "b") ["a", "b", "c"]).2 ["a"] "b" ["c"]
      rfl (by decide) (by decide),
   (wait_and_click_spec (fun _ => false) ["a", "b"]).1 (by decide)⟩

/-- C3: _execute_booking raises exactly when the one-time date selection
fails or every combination in the shuffled order falls through before
reaching classification; date-selection failure raises its own
distinguished error before the loop, exhaustion raises the distinguished
exhaustion error, and every per-combination step failure inside the loop
body is absorbed into the continue-to-next-combination behaviour rather
than raised. -/
theorem execute_booking_raises_iff (today : CalDate) (act : String → Bool)
    (env : Combo → ComboEnv) (shuffled : List Combo) :
    (isErrB (execute_booking today act env shuffled) = true ↔
      (wait_and_click act (date_selectors today) = false ∨
        shuffled.all (fun c => fallsThrough (env c)) = true)) ∧
    (execute_booking today act env shuffled = .error .dateSelectionFailed ↔
      wait_and_click act (date_selectors today) = false) ∧
    (execute_booking today act env shuffled = .error .exhausted ↔
      (wait_and_click act (date_selectors today) = true ∧
        shuffled.all (fun c => fallsThrough (env c)) = true)) := by
  unfold execute_booking execute_booking_trace
  cases hd : wait_and_click act (date_selectors today)
  · simp [hd, isErrB]
  · simp only [hd, Bool.true_eq_false, if_false]
    refine ⟨?_, ?_, ?_⟩
    · simp [bookingLoop_isErr_iff]
    · simp [bookingLoop_not_dateFailed env shuffled]
    · simp [bookingLoop_exhausted_iff]

/-- C4: in every run, the sequence of attempted combinations has no
duplicates whatever the shuffle produced, every attempted combination comes
from the full court-by-slot product, and a run that ends in the exhaustion
error attempted every combination of the product exactly once. -/
theorem execute_booking_attempted_nodup (today : CalDate) (act : String → Bool)
    (env : Combo → ComboEnv) (shuffled : List Combo)
    (hperm : List.Perm shuffled all_combinations) :
    (execute_booking_trace today act env shuffled).attempted.Nodup ∧
    (∀ c ∈ (execute_booking_trace today act env shuffled).attempted,
      c ∈ all_combinations) ∧
    (execute_booking today act env shuffled = .error .exhausted →
      List.Perm (execute_booking_trace today act env shuffled).attempted
        all_combinations) := by
  have hnd : shuffled.Nodup := hperm.nodup_iff.mpr (by decide)
  unfold execute_booking execute_booking_trace
  cases hd : wait_and_click act (date_selectors today)
  · simp
  · simp only [hd, Bool.true_eq_false, if_false]
    have hsub := bookingLoop_attempted_sublist env shuffled
    refine ⟨hsub.nodup hnd, ?_, ?_⟩
    · intro c hc
      exact hperm.mem_iff.mp (hsub.subset hc)
    · intro h
      rw [bookingLoop_exhausted_attempted env shuffled h]
      exact hperm

/-- C4 witness: on the identity shuffle with every court tab failing, the
run exhausts, having attempted each of the nine combinations once. -/
theorem execute_booking_attempted_nodup_witness :
    (execute_booking_trace d0 actAll envAllFail all_combinations).attempted.Nodup ∧
    (∀ c ∈ (execute_booking_trace d0 actAll envAllFail all_combinations).attempted,
      c ∈ all_combinations) ∧
    (execute_booking d0 actAll envAllFail all_combinations = .error .exhausted →
      List.Perm
        (execute_booking_trace d0 actAll envAllFail all_combinations).attempted
        all_combinations) :=
  execute_booking_attempted_nodup d0 actAll envAllFail all_combinations
    (List.Perm.refl _)

/-- C1 counterexample: a run over the full nine-combination product (in
its unshuffled order) in which every page interaction succeeds and the
classifier observes neither the success nor the failure pattern, so every
combination that reaches classification is classified Unknown.  Contrary
to the claim, _execute_booking does not continue past the first
combination and does not end in the exhaustion failure: it returns False
right after the first classified combination, leaving the other eight
unattempted. -/
theorem execute_booking_unknown_counterexample :
    execute_booking_trace d0 actAll envAllUnknown all_combinations =
      ⟨.ok false, [("1号场", "18:00-19:00")], []⟩ ∧
    execute_booking d0 actAll envAllUnknown all_combinations ≠
      .error .exhausted := by
  refine ⟨rfl, ?_⟩
  intro h
  rw [show execute_booking d0 actAll envAllUnknown all_combinations =
      Except.ok false from rfl] at h
  exact Except.noConfusion h

/-- C1 (amended): whenever a combination's submission completes and the
classifier reports Failure or Unknown (check_result returns false),
_execute_booking returns that non-success immediately instead of
continuing: the run ends normally with False at the first combination that
reaches classification, no later combination is attempted, no payment is
attempted, and the exhaustion failure is not raised. -/
theorem execute_booking_classified_nonsuccess (today : CalDate)
    (act : String → Bool) (env : Combo → ComboEnv)
    (pre : List Combo) (c : Combo) (post : List Combo)
    (hdate : wait_and_click act (date_selectors today) = true)
    (hpre : ∀ x ∈ pre, fallsThrough (env x) = true)
    (hc : fallsThrough (env c) = false)
    (hfail : check_result (env c).successText (env c).failureText = false) :
    execute_booking_trace today act env (pre ++ c :: post) =
      ⟨.ok false, pre ++ [c], []⟩ := by
  unfold execute_booking_trace
  rw [hdate]
  simp only [Bool.true_eq_false, if_false]
  rw [bookingLoop_append_falls env pre (c :: post) hpre,
    bookingLoop_first_hit env c post hc, hfail]
  simp

/-- C1 witness: first combination falls through, second reaches
classification with the failure pattern visible; the run returns False with
only those two combinations attempted. -/
theorem execute_booking_classified_nonsuccess_witness :
    execute_booking_trace d0 actAll
        (fun c => if c = ("1号场", "18:00-19:00") then
            ⟨false, false, false, false, false, none, none, false⟩
          else ⟨true, true, true, true, true, none, some "预约失败", true⟩)
        ([("1号场", "18:00-19:00")] ++ ("2号场", "19:00-20:00") ::
          [("3号场", "20:00-21:00")]) =
      ⟨.ok false, [("1号场", "18:00-19:00")] ++ [("2号场", "19:00-20:00")], []⟩ :=
  execute_booking_classified_nonsuccess d0 actAll _
    [("1号场", "18:00-19:00")] ("2号场", "19:00-20:00") [("3号场", "20:00-21:00")]
    rfl (by decide) (by decide) rfl

/-- C5: when the classifier reports Success for the first combination that
reaches classification, _execute_booking calls go_to_payment exactly once
and returns True immediately: no combination after it is attempted, and
the conclusion holds for every payment-click outcome, so a failing
go_to_payment (returning false) does not change the True result. -/
theorem execute_booking_first_success (today : CalDate) (act : String → Bool)
    (env : Combo → ComboEnv) (pre : List Combo) (c : Combo) (post : List Combo)
    (hdate : wait_and_click act (date_selectors today) = true)
    (hpre : ∀ x ∈ pre, fallsThrough (env x) = true)
    (hc : fallsThrough (env c) = false)
    (hsucc : check_result (env c).successText (env c).failureText = true) :
    execute_booking_trace today act env (pre ++ c :: post) =
      ⟨.ok true, pre ++ [c], [(env c).payment]⟩ := by
  unfold execute_booking_trace
  rw [hdate]
  simp only [Bool.true_eq_false, if_false]
  rw [bookingLoop_append_falls env pre (c :: post) hpre,
    bookingLoop_first_hit env c post hc, hsucc]
  simp

/-- C5 witness: the first combination succeeds with the success pattern
visible while the payment click fails; the run still returns True, with one
payment attempt recorded and the second combination untouched. -/
theorem execute_booking_first_success_witness :
    execute_booking_trace d0 actAll envSuccessNoPay
        ([] ++ ("1号场", "18:00-19:00") :: [("2号场", "19:00-20:00")]) =
      ⟨.ok true, [] ++ [("1号场", "18:00-19:00")],
       [(envSuccessNoPay ("1号场", "18:00-19:00")).payment]⟩ :=
  execute_booking_first_success d0 actAll envSuccessNoPay
    [] ("1号场", "18:00-19:00") [("2号场", "19:00-20:00")]
    rfl (by decide) (by decide) rfl

/-- C6 counterexample: two runs whose spec-level classifications are
Failure (failure pattern visible with a message) and Unknown (neither
pattern visible) produce the same check_result return value, so the
source's return value does not distinguish Unknown from Failure. -/
theorem check_result_counterexample :
    check_result none (some "预约失败") = check_result none none ∧
    classifySpec none (some "预约失败") ≠ classifySpec none none :=
  ⟨rfl, by decide⟩

/-- C6 (amended): check_result returns a boolean, not a three-valued
signal: true exactly when the success pattern is observed within its budget
(spec classification Success), and false both when the failure pattern is
observed (Failure) and when neither is (Unknown); the matched text is only
logged, and Unknown is distinguishable from Failure only in the logs, not
at the return-value level. -/
theorem check_result_spec (successText failureText : Option String) :
    (check_result successText failureText = true ↔
      (∃ m, classifySpec successText failureText = .Success m)) ∧
    (check_result successText failureText = false ↔
      (classifySpec successText failureText = .Unknown ∨
        ∃ m, classifySpec successText failureText = .Failure m)) := by
  cases successText <;> cases failureText <;> simp [check_result, classifySpec]

/-- C7 counterexample: invoked at an instant exactly equal to today's
08:30:00.000 (millisecond 30600000 of the day), wait_until_target_time
rolls the target forward by one day even though the current time is not yet
past that time-of-day, contradicting the claim that the roll happens
precisely when the current time is already past it. -/
theorem wait_until_roll_counterexample :
    30600000 / msPerDay * msPerDay + parseTargetTime "08:30:00:000" = 30600000 ∧
    computeTarget "08:30:00:000" 30600000 = 30600000 + msPerDay ∧
    ¬ 30600000 < 30600000 :=
  ⟨rfl, rfl, by omega⟩

/-- C7 (amended): in CI bypass mode wait_until_target_time returns
immediately at the invocation instant; otherwise the target is built from
today's date and the configured time-of-day, rolled forward by exactly one
day precisely when the current time has reached or passed that time-of-day
(now greater than or equal to it), and the function returns only at a
clock reading at or after the possibly rolled target. -/
theorem wait_until_spec (is_ci : Bool) (target_time : String) (now : Nat)
    (clock : Nat → Nat) (fuel : Nat) :
    (is_ci = true → wait_until_target_time is_ci target_time now clock fuel = some now) ∧
    (computeTarget target_time now =
        now / msPerDay * msPerDay + parseTargetTime target_time + msPerDay ↔
      now / msPerDay * msPerDay + parseTargetTime target_time ≤ now) ∧
    (∀ t, is_ci = false →
      wait_until_target_time is_ci target_time now clock fuel = some t →
      computeTarget target_time now ≤ t) := by
  refine ⟨?_, ?_, ?_⟩
  · intro h
    simp [wait_until_target_time, h]
  · simp only [computeTarget, msPerDay]
    split <;> omega
  · intro t hci h
    rw [wait_until_target_time, hci] at h
    simp only [Bool.false_eq_true, if_false] at h
    exact spinWait_ge clock _ fuel 0 t h

/-- C7 witness: in bypass mode the function returns at the invocation
instant 5; in racing mode invoked at midnight with a clock reading of
40000000, it returns at that reading, which is at or past the computed
target. -/
theorem wait_until_spec_witness :
    wait_until_target_time true "08:30:00:000" 5 (fun _ => 0) 1 = some 5 ∧
    computeTarget "08:30:00:000" 0 ≤ 40000000 :=
  ⟨(wait_until_spec true "08:30:00:000" 5 (fun _ => 0) 1).1 rfl,
   (wait_until_spec false "08:30:00:000" 0 (fun _ => 40000000) 3).2.2
     40000000 rfl rfl⟩

/-- C8: run catches every exception of the prepare, wait and search steps
(whatever error value each produces, the exhaustion failure included, since
the error type is arbitrary): the returned boolean is true exactly when all
three steps completed and the search returned true, the diagnostic
screenshot is attempted exactly when some step raised, and the screenshot
call's own outcome changes neither the returned boolean nor whether the
screenshot was attempted. -/
theorem run_orchestrator_spec {ε : Type} (prep waitStep : Except ε Unit)
    (search : Except ε Bool) (shot : Except ε Unit) :
    ((runOrchestrator prep waitStep search shot).result = true ↔
      (prep = .ok () ∧ waitStep = .ok () ∧ search = .ok true)) ∧
    ((runOrchestrator prep waitStep search shot).screenshotAttempted = true ↔
      (∃ e, seqResult prep waitStep search = .error e)) ∧
    (∀ shot2 : Except ε Unit,
      (runOrchestrator prep waitStep search shot2).result =
          (runOrchestrator prep waitStep search shot).result ∧
      (runOrchestrator prep waitStep search shot2).screenshotAttempted =
          (runOrchestrator prep waitStep search shot).screenshotAttempted) := by
  rcases prep with e1 | u1 <;> rcases waitStep with e2 | u2 <;>
    rcases search with e3 | b <;> simp [runOrchestrator, seqResult]

/-- C9: the one-time date-selection candidates are built exclusively from
the literal tomorrow text and the zero-padded day-of-month of today plus
one day; on any date whose day field is calendar-valid, that day-of-month
differs from today's, so the selectors never name today's day. -/
theorem date_selectors_spec (today : CalDate)
    (hdm : today.day ≤ daysInMonth today.year today.month) :
    date_selectors today =
      ["text=明天", "text=/-" ++ pad2 ((addOneDay today).day) ++ "/",
       "text=/" ++ pad2 ((addOneDay today).day) ++ "/"] ∧
    (addOneDay today).day ≠ today.day := by
  refine ⟨rfl, ?_⟩
  have h28 := daysInMonth_ge today.year today.month
  unfold addOneDay
  by_cases h : today.day < daysInMonth today.year today.month
  · rw [if_pos h]
    show today.day + 1 ≠ today.day
    omega
  · rw [if_neg h]
    by_cases hm : today.month < 12
    · rw [if_pos hm]
      show (1 : Nat) ≠ today.day
      omega
    · rw [if_neg hm]
      show (1 : Nat) ≠ today.day
      omega

/-- C9 witness: on 2025-10-12 the selectors are the tomorrow literal and
the two patterns built from day 13. -/
theorem date_selectors_spec_witness :
    date_selectors d0 =
      ["text=明天", "text=/-" ++ pad2 ((addOneDay d0).day) ++ "/",
       "text=/" ++ pad2 ((addOneDay d0).day) ++ "/"] ∧
    (addOneDay d0).day ≠ d0.day :=
  date_selectors_spec d0 (by decide)

/-- C10: every configuration produced by the constructor has a non-empty
username and password (the constructor raises when either variable is
missing or empty), and consequently do_login never takes the
skip-credentials branch: it either raises (its raised message is some) or
fills both fields and clicks the login button. -/
theorem init_login_invariant (u p g : Option String) (cfg : BookingConfig)
    (h : initBooking u p g = .ok cfg) (clickOutside clickLogin : Bool) :
    cfg.username ≠ "" ∧ cfg.password ≠ "" ∧
    LoginAction.skipLogin ∉ (do_login cfg clickOutside clickLogin).1 ∧
    ((do_login cfg clickOutside clickLogin).2.isSome = true ∨
      ((do_login cfg clickOutside clickLogin).1 =
          [.fillUsername, .fillPassword, .clickLoginButton] ∧
        (do_login cfg clickOutside clickLogin).2 = none)) := by
  unfold initBooking at h
  by_cases hcond : truthyOpt u = false ∨ truthyOpt p = false
  · rw [if_pos hcond] at h
    exact absurd h (by simp)
  · rw [if_neg hcond] at h
    injection h with h'
    subst h'
    push_neg at hcond
    obtain ⟨hu, hp⟩ := hcond
    have hu' : truthyOpt u = true := by
      cases hx : truthyOpt u
      · exact absurd hx hu
      · rfl
    have hp' : truthyOpt p = true := by
      cases hx : truthyOpt p
      · exact absurd hx hp
      · rfl
    cases u with
    | none => simp [truthyOpt] at hu'
    | some s =>
      cases p with
      | none => simp [truthyOpt] at hp'
      | some t =>
        have hs : s.isEmpty = false := by simpa [truthyOpt] using hu'
        have ht : t.isEmpty = false := by simpa [truthyOpt] using hp'
        have hs' : s ≠ "" := by
          intro he
          rw [he] at hs
          exact absurd hs (by decide)
        have ht' : t ≠ "" := by
          intro he
          rw [he] at ht
          exact absurd ht (by decide)
        refine ⟨by simpa using hs', by simpa using ht', ?_, ?_⟩
        · cases clickOutside <;> cases clickLogin <;> simp [do_login, hs, ht]
        · cases clickOutside <;> cases clickLogin <;> simp [do_login, hs, ht]

/-- C10 witness: a configuration built from concrete non-empty credentials
has non-empty fields, and a do_login run whose login-button click fails
raises after filling, never skipping. -/
theorem init_login_invariant_witness :
    cfg0.username ≠ "" ∧ cfg0.password ≠ "" ∧
    LoginAction.skipLogin ∉ (do_login cfg0 true false).1 ∧
    ((do_login cfg0 true false).2.isSome = true ∨
      ((do_login cfg0 true false).1 =
          [.fillUsername, .fillPassword, .clickLoginButton] ∧
        (do_login cfg0 true false).2 = none)) :=
  init_login_invariant (some "alice") (some "pw") none cfg0 rfl true false
